import Mathlib

/-!
Verification of the gccrs path-probe / trait-bounds resolution slice.

Shallow embedding of:
- `TraitItemReference` / `TraitReference` (rust-hir-trait-ref.h),
- `TypeBoundsProbe::scan` (rust-tyty-bounds.cc),
- `PathProbeCandidate` / `PathProbeType::Probe` (rust-hir-path-probe.h).

Conventions of the embedding:
- C++ pointers that may be null become `Option`.
- A `rust_assert` failure or `gcc_unreachable` is modelled by returning
  `none` from an `Option`-valued function: the computation aborts and no
  result is produced.
- External collaborators (the type cache `context->lookup_type`, the
  structural-compatibility virtual `BaseType::can_eq`, the memoized
  `TraitResolver::Resolve`, and the per-kind trait-item type builders
  `get_type_from_constant/typealias/fn`, which are declared but not defined
  in this slice) are parameters, bundled in `Env` and `TraitTypeBuilders`.
-/

namespace GccrsProbe

/-- HIR node id (`HirId`). -/
abbrev HirId := Nat

/-- Source location (`Location`); default-constructed is `0`. -/
abbrev Location := Nat

/-- A trait path node (`HIR::TypePath *`), identified abstractly. -/
abbrev TraitPath := Nat

/-- `TyTy::BaseType`: abstract resolved types, plus `TyTy::ErrorType` which
carries the HirId it was constructed with (`new ErrorType (hirid)`). -/
inductive BaseType where
  | base : Nat → BaseType
  | errorType : HirId → BaseType
deriving DecidableEq

/-- The HIR node behind a trait item (`HIR::TraitItem *`); the probe slice
only ever extracts its mappings hirid (`get_mappings ().get_hirid ()`). -/
structure HIRTraitItem where
  hirid : HirId
deriving DecidableEq

/-- `TraitItemReference::TraitItemType`. -/
inductive TraitItemType where
  | FN
  | CONST
  | TYPE
  | ERROR
deriving DecidableEq

/-- `TyTy::SubstitutionParamMapping`, opaque to this slice. -/
structure SubstitutionParamMapping where
  id : Nat
deriving DecidableEq

/-- `TraitItemReference`: one trait item's declaration metadata.
`hir_trait_item` is a nullable pointer, hence `Option`. -/
structure TraitItemReference where
  identifier : String
  optional_flag : Bool
  type : TraitItemType
  hir_trait_item : Option HIRTraitItem
  inherited_substitutions : List SubstitutionParamMapping
  locus : Location
  self : Option BaseType
deriving DecidableEq

/-- `TraitItemReference::error ()`: identifier `""`, not optional, kind
`ERROR`, null declaration, empty substitutions, default location. -/
def TraitItemReference.error : TraitItemReference :=
  { identifier := ""
    optional_flag := false
    type := TraitItemType.ERROR
    hir_trait_item := none
    inherited_substitutions := []
    locus := 0
    self := none }

/-- `TraitItemReference::error_node ()`: the shared static sentinel. -/
def TraitItemReference.error_node : TraitItemReference :=
  TraitItemReference.error

/-- `TraitItemReference::is_error`: `type == ERROR`. -/
def TraitItemReference.is_error (i : TraitItemReference) : Bool :=
  i.type == TraitItemType.ERROR

/-- `TraitItemReference::is_optional`. -/
def TraitItemReference.is_optional (i : TraitItemReference) : Bool :=
  i.optional_flag

/-- `TraitItemReference::get_identifier`. -/
def TraitItemReference.get_identifier (i : TraitItemReference) : String :=
  i.identifier

/-- `TraitItemReference::get_trait_item_type`. -/
def TraitItemReference.get_trait_item_type (i : TraitItemReference) :
    TraitItemType :=
  i.type

/-- `TraitItemReference::get_locus`. -/
def TraitItemReference.get_locus (i : TraitItemReference) : Location :=
  i.locus

/-- The external per-kind type builders `get_type_from_constant`,
`get_type_from_typealias`, `get_type_from_fn`: declared in the header but
defined outside this slice, so they are abstract parameters. -/
structure TraitTypeBuilders where
  get_type_from_constant : HIRTraitItem → BaseType
  get_type_from_typealias : HIRTraitItem → BaseType
  get_type_from_fn : HIRTraitItem → BaseType

/-- `TraitItemReference::get_error ()`: `new TyTy::ErrorType
(get_mappings ().get_hirid ())`, given the (non-null) declaration node. -/
def TraitItemReference.get_error (h : HIRTraitItem) : BaseType :=
  BaseType.errorType h.hirid

/-- `TraitItemReference::get_tyty ()`. It first runs
`rust_assert (hir_trait_item != nullptr)` — modelled by `none` when the
declaration pointer is null — then dispatches on the kind: `CONST`/`TYPE`/
`FN` call the external builders, and the `default` branch (kind `ERROR`)
returns `get_error ()`. -/
def TraitItemReference.get_tyty (b : TraitTypeBuilders)
    (i : TraitItemReference) : Option BaseType :=
  match i.hir_trait_item with
  | none => none
  | some h =>
    match i.type with
    | TraitItemType.CONST => some (b.get_type_from_constant h)
    | TraitItemType.TYPE => some (b.get_type_from_typealias h)
    | TraitItemType.FN => some (b.get_type_from_fn h)
    | TraitItemType.ERROR => some (TraitItemReference.get_error h)

/-- `TraitReference`: nullable pointer to the trait declaration (abstract
id) plus the owned ordered item list. -/
structure TraitReference where
  hir_trait_ref : Option Nat
  item_refs : List TraitItemReference
deriving DecidableEq

/-- `TraitReference::error ()`: null declaration, no items. -/
def TraitReference.error : TraitReference :=
  { hir_trait_ref := none, item_refs := [] }

/-- `TraitReference::is_error`: `hir_trait_ref == nullptr`. -/
def TraitReference.is_error (t : TraitReference) : Bool :=
  t.hir_trait_ref.isNone

/-- The `for` loop of `TraitReference::lookup_trait_item`: return the first
item whose identifier compares equal to `ident`, else the sentinel. -/
def lookupItemsByIdent (ident : String) :
    List TraitItemReference → TraitItemReference
  | [] => TraitItemReference.error_node
  | item :: rest =>
    if ident == item.get_identifier then item
    else lookupItemsByIdent ident rest

/-- `TraitReference::lookup_trait_item (ident)`. -/
def TraitReference.lookup_trait_item (t : TraitReference) (ident : String) :
    TraitItemReference :=
  lookupItemsByIdent ident t.item_refs

/-- `HIR::ImplItem`, restricted to the three kinds the probe visitor
handles (`HIR::TypeAlias`, `HIR::ConstantItem`, `HIR::Function`), each
carrying its name accessor's result and its mappings hirid. -/
inductive ImplItem where
  | typeAlias (new_type_name : String) (hirid : HirId)
  | constantItem (identifier : String) (hirid : HirId)
  | functionItem (function_name : String) (hirid : HirId)
deriving DecidableEq

/-- `HIR::ImplBlock`: its self-type node's mappings hirid
(`impl->get_type ()->get_mappings ().get_hirid ()`) and its optional trait
reference (`has_trait_ref` / `get_trait_ref`). -/
structure ImplBlock where
  self_type_hirid : HirId
  trait_ref : Option TraitPath
deriving DecidableEq

/-- `HIR::ImplBlock::has_trait_ref`. -/
def ImplBlock.has_trait_ref (b : ImplBlock) : Bool :=
  b.trait_ref.isSome

/-- The ambient state a probe runs against: the registry
(`mappings->iterate_impl_items` / `iterate_impl_blocks` enumeration
orders), the type cache (`context->lookup_type`), the structural
compatibility virtual (`receiver->can_eq (other, strict)`), and the
memoized external trait-path resolver (`TraitResolver::Resolve`). -/
structure Env where
  impl_items : List (HirId × ImplItem × ImplBlock)
  impl_blocks : List (HirId × ImplBlock)
  lookup_type : HirId → Option BaseType
  can_eq : BaseType → BaseType → Bool → Bool
  resolve_trait : TraitPath → TraitReference

/-- `TypeBoundsProbe::scan`: first loop collects `possible_trait_paths`
from trait-implementing blocks whose cached self type is compatible with
the receiver (a cache miss is a silent `return true`, i.e. skip); second
loop resolves each path and keeps only non-error trait references. -/
def TypeBoundsProbe.scan (env : Env) (receiver : BaseType) :
    List TraitReference :=
  let possible_trait_paths : List TraitPath :=
    env.impl_blocks.filterMap fun p =>
      let impl := p.2
      if !impl.has_trait_ref then none
      else
        match env.lookup_type impl.self_type_hirid with
        | none => none
        | some impl_type =>
          if !env.can_eq receiver impl_type false then none
          else impl.trait_ref
  (possible_trait_paths.map fun tp => env.resolve_trait tp).filter
    fun trait_ref => !trait_ref.is_error

/-- `PathProbeCandidate::CandidateType`. -/
inductive CandidateType where
  | IMPL_CONST
  | IMPL_TYPE_ALIAS
  | IMPL_FUNC
  | TRAIT_ITEM_CONST
  | TRAIT_TYPE_ALIAS
  | TRAIT_FUNC
deriving DecidableEq

/-- `PathProbeCandidate::ImplItemCandidate`. -/
structure ImplItemCandidate where
  impl_item : ImplItem
  parent : ImplBlock
deriving DecidableEq

/-- `PathProbeCandidate::TraitItemCandidate`. -/
structure TraitItemCandidate where
  trait_ref : TraitReference
  item_ref : TraitItemReference
deriving DecidableEq

/-- The union `PathProbeCandidate::Candidate`, as a sum. -/
inductive Candidate where
  | impl : ImplItemCandidate → Candidate
  | trait : TraitItemCandidate → Candidate
deriving DecidableEq

/-- `PathProbeCandidate`. -/
structure PathProbeCandidate where
  type : CandidateType
  ty : BaseType
  item : Candidate
deriving DecidableEq

/-- `PathProbeCandidate::is_impl_candidate`: switch over `type`, `true` on
the three `IMPL_*` cases, `false` on `default`. -/
def PathProbeCandidate.is_impl_candidate (c : PathProbeCandidate) : Bool :=
  match c.type with
  | CandidateType.IMPL_CONST => true
  | CandidateType.IMPL_TYPE_ALIAS => true
  | CandidateType.IMPL_FUNC => true
  | _ => false

/-- `PathProbeCandidate::is_trait_candidate`: switch over `type`, `true` on
the three `TRAIT_*` cases, `false` on `default`. -/
def PathProbeCandidate.is_trait_candidate (c : PathProbeCandidate) : Bool :=
  match c.type with
  | CandidateType.TRAIT_ITEM_CONST => true
  | CandidateType.TRAIT_TYPE_ALIAS => true
  | CandidateType.TRAIT_FUNC => true
  | _ => false

/-- The three `PathProbeType::visit` overloads, fused by kind dispatch
(`item->accept_vis (*this)`): if the search identifier equals the item's
name, look up the item's own type (`rust_assert (ok)` — a miss is a fatal
`none`) and append one candidate tagged `IMPL_TYPE_ALIAS` / `IMPL_CONST` /
`IMPL_FUNC` with the current impl block as parent; otherwise append
nothing. -/
def PathProbeType.visitImplItem (env : Env) (search : String)
    (current_impl : ImplBlock) (item : ImplItem) :
    Option (List PathProbeCandidate) :=
  match item with
  | ImplItem.typeAlias name tyid =>
    if search == name then
      match env.lookup_type tyid with
      | none => none
      | some ty =>
        some [{ type := CandidateType.IMPL_TYPE_ALIAS, ty := ty,
                item := Candidate.impl
                  { impl_item := ImplItem.typeAlias name tyid,
                    parent := current_impl } }]
    else some []
  | ImplItem.constantItem name tyid =>
    if search == name then
      match env.lookup_type tyid with
      | none => none
      | some ty =>
        some [{ type := CandidateType.IMPL_CONST, ty := ty,
                item := Candidate.impl
                  { impl_item := ImplItem.constantItem name tyid,
                    parent := current_impl } }]
    else some []
  | ImplItem.functionItem name tyid =>
    if search == name then
      match env.lookup_type tyid with
      | none => none
      | some ty =>
        some [{ type := CandidateType.IMPL_FUNC, ty := ty,
                item := Candidate.impl
                  { impl_item := ImplItem.functionItem name tyid,
                    parent := current_impl } }]
    else some []

/-- `PathProbeType::process_impl_item_candidate`: look up the impl block's
self type — `rust_assert (ok)`, so a cache miss is fatal (`none`), not a
skip; then skip (empty contribution) when the receiver is not non-strictly
compatible; otherwise visit the item. -/
def PathProbeType.process_impl_item_candidate (env : Env)
    (receiver : BaseType) (search : String) (item : ImplItem)
    (impl : ImplBlock) : Option (List PathProbeCandidate) :=
  match env.lookup_type impl.self_type_hirid with
  | none => none
  | some impl_block_ty =>
    if !env.can_eq receiver impl_block_ty false then some []
    else PathProbeType.visitImplItem env search impl item

/-- `PathProbeType::process_impl_items_for_candidates`: iterate every
(item, impl block) pair in registry order, accumulating candidates; a
fatal assertion in any pair aborts the whole probe. -/
def PathProbeType.process_impl_items_for_candidates (env : Env)
    (receiver : BaseType) (search : String) :
    List (HirId × ImplItem × ImplBlock) → Option (List PathProbeCandidate)
  | [] => some []
  | p :: rest =>
    match PathProbeType.process_impl_item_candidate env receiver search
        p.2.1 p.2.2 with
    | none => none
    | some cs =>
      match PathProbeType.process_impl_items_for_candidates env receiver
          search rest with
      | none => none
      | some rest_cs => some (cs ++ rest_cs)

/-- The kind-dispatch switch inside
`PathProbeType::process_traits_for_candidates`: `FN`/`CONST`/`TYPE` pick
the corresponding `TRAIT_*` candidate type; the `ERROR` case is
`gcc_unreachable ()`, modelled as `none`. -/
def traitItemCandidateType : TraitItemType → Option CandidateType
  | TraitItemType.FN => some CandidateType.TRAIT_FUNC
  | TraitItemType.CONST => some CandidateType.TRAIT_ITEM_CONST
  | TraitItemType.TYPE => some CandidateType.TRAIT_TYPE_ALIAS
  | TraitItemType.ERROR => none

/-- `PathProbeType::process_traits_for_candidates`: for each satisfied
trait, look up the item by the search identifier; `continue` when the
lookup is the error sentinel or the item is not optional; otherwise
dispatch the candidate type (fatal on `ERROR`), compute the item's type
via `get_tyty` (fatal when its null-declaration assert fires), and append
a trait candidate. -/
def PathProbeType.process_traits_for_candidates (b : TraitTypeBuilders)
    (search : String) :
    List TraitReference → Option (List PathProbeCandidate)
  | [] => some []
  | trait_ref :: rest =>
    let trait_item_ref := trait_ref.lookup_trait_item search
    if trait_item_ref.is_error then
      PathProbeType.process_traits_for_candidates b search rest
    else if !trait_item_ref.is_optional then
      PathProbeType.process_traits_for_candidates b search rest
    else
      match traitItemCandidateType trait_item_ref.get_trait_item_type with
      | none => none
      | some candidate_type =>
        match trait_item_ref.get_tyty b with
        | none => none
        | some ty =>
          match PathProbeType.process_traits_for_candidates b search
              rest with
          | none => none
          | some rest_cs =>
            some ({ type := candidate_type, ty := ty,
                    item := Candidate.trait
                      { trait_ref := trait_ref,
                        item_ref := trait_item_ref } } :: rest_cs)

/-- `PathProbeType::Probe`: run the inherent pass over the whole registry,
then the trait-default pass over `TypeBoundsProbe` results, and return the
concatenation; `none` models a fatal assertion anywhere inside. -/
def PathProbeType.Probe (env : Env) (b : TraitTypeBuilders)
    (receiver : BaseType) (segment_name : String) :
    Option (List PathProbeCandidate) :=
  match PathProbeType.process_impl_items_for_candidates env receiver
      segment_name env.impl_items with
  | none => none
  | some impl_candidates =>
    match PathProbeType.process_traits_for_candidates b segment_name
        (TypeBoundsProbe.scan env receiver) with
    | none => none
    | some trait_candidates => some (impl_candidates ++ trait_candidates)

/-- The name accessor of an impl item, per kind (`get_new_type_name`,
`get_identifier`, `get_function_name`). -/
def implItemIdentifier : ImplItem → String
  | ImplItem.typeAlias name _ => name
  | ImplItem.constantItem name _ => name
  | ImplItem.functionItem name _ => name

/-- The mappings hirid of an impl item. -/
def implItemHirId : ImplItem → HirId
  | ImplItem.typeAlias _ tyid => tyid
  | ImplItem.constantItem _ tyid => tyid
  | ImplItem.functionItem _ tyid => tyid

/-- The inherent candidate tag matching an impl item's kind. -/
def implItemCandidateType : ImplItem → CandidateType
  | ImplItem.typeAlias _ _ => CandidateType.IMPL_TYPE_ALIAS
  | ImplItem.constantItem _ _ => CandidateType.IMPL_CONST
  | ImplItem.functionItem _ _ => CandidateType.IMPL_FUNC

/-- Spec-side characterization of one registry pair's inherent
contribution, following P3 and §4.4 step 1 of the spec: a pair yields a
candidate exactly when the owning block's cached self type is non-strictly
compatible with the receiver and the item's identifier equals the query,
the candidate carrying the item's already-computed (cached) type, tagged
with the item's kind and owning block. Used only to compare the code's
inherent pass against the spec's words. -/
def specInherentCandidate (env : Env) (receiver : BaseType)
    (search : String) (p : HirId × ImplItem × ImplBlock) :
    Option PathProbeCandidate :=
  match env.lookup_type p.2.2.self_type_hirid with
  | none => none
  | some self_ty =>
    if env.can_eq receiver self_ty false
        && (search == implItemIdentifier p.2.1) then
      match env.lookup_type (implItemHirId p.2.1) with
      | none => none
      | some ty =>
        some { type := implItemCandidateType p.2.1, ty := ty,
               item := Candidate.impl
                 { impl_item := p.2.1, parent := p.2.2 } }
    else none

/-- Spec-side inherent candidate list over the whole registry. -/
def specInherentCandidates (env : Env) (receiver : BaseType)
    (search : String) : List PathProbeCandidate :=
  env.impl_items.filterMap (specInherentCandidate env receiver search)

/-! Concrete sample data used by witnesses. -/

/-- A trait item `baz`: optional (has a default body), function kind. -/
def sampleBazItem : TraitItemReference :=
  { identifier := "baz"
    optional_flag := true
    type := TraitItemType.FN
    hir_trait_item := some { hirid := 7 }
    inherited_substitutions := []
    locus := 3
    self := none }

/-- A trait item `qux`: mandatory (no default body), function kind. -/
def sampleQuxItem : TraitItemReference :=
  { identifier := "qux"
    optional_flag := false
    type := TraitItemType.FN
    hir_trait_item := some { hirid := 8 }
    inherited_substitutions := []
    locus := 4
    self := none }

/-- A trait with items `baz` (optional) and `qux` (mandatory). -/
def sampleTrait : TraitReference :=
  { hir_trait_ref := some 3, item_refs := [sampleBazItem, sampleQuxItem] }

/-- Concrete external type builders. -/
def sampleBuilders : TraitTypeBuilders :=
  { get_type_from_constant := fun h => BaseType.base h.hirid
    get_type_from_typealias := fun h => BaseType.base h.hirid
    get_type_from_fn := fun h => BaseType.base h.hirid }

/-- A registry with one inherent function `bar` on a fully cached block,
and one trait-implementing block for `sampleTrait`. -/
def sampleEnv : Env :=
  { impl_items :=
      [(0, ImplItem.functionItem "bar" 10,
        { self_type_hirid := 20, trait_ref := none })]
    impl_blocks := [(1, { self_type_hirid := 20, trait_ref := some 5 })]
    lookup_type := fun id =>
      if id == 20 then some (BaseType.base 1)
      else if id == 10 then some (BaseType.base 2)
      else none
    can_eq := fun _ _ _ => true
    resolve_trait := fun _ => sampleTrait }

/-- A registry whose first (item, block) pair has an uncached block self
type, while its second pair is fully cached, name-matching `foo` and
receiver-compatible. -/
def cacheMissEnv : Env :=
  { impl_items :=
      [(0, ImplItem.functionItem "foo" 10,
        { self_type_hirid := 99, trait_ref := none }),
       (1, ImplItem.functionItem "foo" 11,
        { self_type_hirid := 20, trait_ref := none })]
    impl_blocks := []
    lookup_type := fun id =>
      if id == 20 then some (BaseType.base 1)
      else if id == 11 then some (BaseType.base 2)
      else none
    can_eq := fun _ _ _ => true
    resolve_trait := fun _ => TraitReference.error }

/-- An `ERROR`-kind trait item whose declaration reference is non-null. -/
def errKindItem : TraitItemReference :=
  { identifier := "assoc"
    optional_flag := false
    type := TraitItemType.ERROR
    hir_trait_item := some { hirid := 9 }
    inherited_substitutions := []
    locus := 5
    self := none }

/-- The inherent candidate `Probe sampleEnv … "bar"` produces. -/
def sampleImplCandidate : PathProbeCandidate :=
  { type := CandidateType.IMPL_FUNC
    ty := BaseType.base 2
    item := Candidate.impl
      { impl_item := ImplItem.functionItem "bar" 10
        parent := { self_type_hirid := 20, trait_ref := none } } }

/-- The trait-default candidate `Probe sampleEnv … "baz"` produces. -/
def sampleTraitCandidate : PathProbeCandidate :=
  { type := CandidateType.TRAIT_FUNC
    ty := BaseType.base 7
    item := Candidate.trait
      { trait_ref := sampleTrait, item_ref := sampleBazItem } }

/-! Helper lemmas. -/

/-- The lookup loop is `find?` with the sentinel as fallback. -/
lemma lookupItemsByIdent_eq_find (ident : String)
    (l : List TraitItemReference) :
    lookupItemsByIdent ident l
      = (l.find? fun i => ident == i.get_identifier).getD
          TraitItemReference.error_node := by
  induction l with
  | nil => rfl
  | cons item rest ih =>
    rw [lookupItemsByIdent, List.find?_cons]
    by_cases hcase : ident == item.get_identifier
    · simp [hcase]
    · simp only [Bool.not_eq_true] at hcase
      simp [hcase, ih]

/-! Claim theorems. -/

/-- C3: `TypeBoundsProbe::scan` never returns a trait reference flagged as
error: every trait path whose resolution is the error sentinel is filtered
out before the list is returned. -/
theorem c3_scan_no_error_refs (env : Env) (receiver : BaseType)
    (tr : TraitReference) (hmem : tr ∈ TypeBoundsProbe.scan env receiver) :
    tr.is_error = false := by
  unfold TypeBoundsProbe.scan at hmem
  simp only [List.mem_filter, Bool.not_eq_eq_eq_not, Bool.not_true] at hmem
  exact hmem.2

/-- Witness for C3 at a concrete environment. -/
theorem c3_scan_no_error_refs_witness : sampleTrait.is_error = false :=
  c3_scan_no_error_refs sampleEnv (BaseType.base 1) sampleTrait (by decide)

/-- C4: every trait-implementing block whose self type is cached and
compatible with the receiver contributes its (non-error-resolving) trait
to `scan`; conversely every returned trait reference comes from such a
block, so inherent blocks and blocks with uncached self types contribute
nothing. -/
theorem c4_scan_coverage (env : Env) (receiver : BaseType) :
    (∀ (id : HirId) (impl : ImplBlock) (tp : TraitPath) (bty : BaseType),
      (id, impl) ∈ env.impl_blocks →
      impl.trait_ref = some tp →
      env.lookup_type impl.self_type_hirid = some bty →
      env.can_eq receiver bty false = true →
      (env.resolve_trait tp).is_error = false →
      env.resolve_trait tp ∈ TypeBoundsProbe.scan env receiver)
    ∧ (∀ tr ∈ TypeBoundsProbe.scan env receiver,
      ∃ (id : HirId) (impl : ImplBlock) (tp : TraitPath) (bty : BaseType),
        (id, impl) ∈ env.impl_blocks ∧ impl.trait_ref = some tp
        ∧ env.lookup_type impl.self_type_hirid = some bty
        ∧ env.can_eq receiver bty false = true
        ∧ tr = env.resolve_trait tp) := by
  constructor
  · intro id impl tp bty hmem htrait hlook hcompat herr
    unfold TypeBoundsProbe.scan
    refine List.mem_filter.mpr ⟨List.mem_map.mpr ⟨tp, ?_, rfl⟩, ?_⟩
    · refine List.mem_filterMap.mpr ⟨(id, impl), hmem, ?_⟩
      simp [ImplBlock.has_trait_ref, htrait, hlook, hcompat]
    · simp [herr]
  · intro tr hmem
    unfold TypeBoundsProbe.scan at hmem
    obtain ⟨hmap, _⟩ := List.mem_filter.mp hmem
    obtain ⟨tp, htp, htr⟩ := List.mem_map.mp hmap
    obtain ⟨p, hp, hf⟩ := List.mem_filterMap.mp htp
    by_cases htrait : p.2.has_trait_ref
    · simp only [htrait, Bool.not_true, if_false] at hf
      rcases hlook : env.lookup_type p.2.self_type_hirid with _ | bty
      · rw [hlook] at hf; exact absurd hf (by simp)
      · rw [hlook] at hf
        by_cases hcompat : env.can_eq receiver bty false
        · simp only [hcompat, Bool.not_true, if_false] at hf
          exact ⟨p.1, p.2, tp, bty, hp, hf, hlook, hcompat, htr.symm⟩
        · simp only [Bool.not_eq_true] at hcompat
          simp [hcompat] at hf
    · simp only [Bool.not_eq_true] at htrait
      simp [htrait] at hf

/-- Witness for C4 at a concrete environment. -/
theorem c4_scan_coverage_witness :
    sampleEnv.resolve_trait 5 ∈ TypeBoundsProbe.scan sampleEnv
      (BaseType.base 1) :=
  (c4_scan_coverage sampleEnv (BaseType.base 1)).1 1
    { self_type_hirid := 20, trait_ref := some 5 } 5 (BaseType.base 1)
    (by decide) rfl rfl rfl rfl

/-- C7: `lookup_trait_item` returns the first item whose identifier equals
the queried name and the shared sentinel when no item matches; on an
unmatched name the result satisfies `is_error`, and the sentinel itself
always satisfies `is_error`. (Returning a reference, it can never be
null; in the embedding it is total.) -/
theorem c7_lookup_trait_item_spec (tr : TraitReference) (ident : String) :
    tr.lookup_trait_item ident
      = (tr.item_refs.find? fun i => ident == i.get_identifier).getD
          TraitItemReference.error_node
    ∧ ((∀ i ∈ tr.item_refs, ¬ ident = i.get_identifier) →
        tr.lookup_trait_item ident = TraitItemReference.error_node
        ∧ (tr.lookup_trait_item ident).is_error = true)
    ∧ TraitItemReference.error_node.is_error = true := by
  refine ⟨lookupItemsByIdent_eq_find ident tr.item_refs, ?_, rfl⟩
  intro hnone
  have hfind : (tr.item_refs.find? fun i => ident == i.get_identifier)
      = none := by
    rw [List.find?_eq_none]
    intro i hi
    simpa using hnone i hi
  have heq : tr.lookup_trait_item ident = TraitItemReference.error_node := by
    rw [TraitReference.lookup_trait_item,
      lookupItemsByIdent_eq_find ident tr.item_refs, hfind]
    rfl
  exact ⟨heq, by rw [heq]; rfl⟩

/-- Witness for C7: looking up an absent name in a concrete trait yields
the sentinel, on which `is_error` holds. -/
theorem c7_lookup_trait_item_spec_witness :
    (sampleTrait.lookup_trait_item "nope").is_error = true :=
  ((c7_lookup_trait_item_spec sampleTrait "nope").2.1 (by decide)).2

/-- C8: `Probe` is deterministic — two runs against the same registry,
type cache, compatibility predicate and resolver state return the same
result. In the embedding all of that state is an explicit input, so the
probe is a pure function of it. -/
theorem c8_probe_deterministic (env : Env) (b : TraitTypeBuilders)
    (receiver : BaseType) (segment_name : String)
    (o1 o2 : Option (List PathProbeCandidate))
    (h1 : PathProbeType.Probe env b receiver segment_name = o1)
    (h2 : PathProbeType.Probe env b receiver segment_name = o2) :
    o1 = o2 :=
  h1.symm.trans h2

/-- Witness for C8 at a concrete probe invocation. -/
theorem c8_probe_deterministic_witness :
    PathProbeType.Probe sampleEnv sampleBuilders (BaseType.base 1) "bar"
      = PathProbeType.Probe sampleEnv sampleBuilders (BaseType.base 1)
          "bar" :=
  c8_probe_deterministic sampleEnv sampleBuilders (BaseType.base 1) "bar"
    _ _ rfl rfl

/-- C9: the candidate discriminant partitions the six variants —
`is_impl_candidate` holds exactly on the three `IMPL_*` variants,
`is_trait_candidate` exactly on the three `TRAIT_*` variants, and on any
candidate exactly one of the two holds. -/
theorem c9_candidate_variant_partition (c : PathProbeCandidate) :
    (c.is_impl_candidate = true
      ↔ (c.type = CandidateType.IMPL_CONST
        ∨ c.type = CandidateType.IMPL_TYPE_ALIAS
        ∨ c.type = CandidateType.IMPL_FUNC))
    ∧ (c.is_trait_candidate = true
      ↔ (c.type = CandidateType.TRAIT_ITEM_CONST
        ∨ c.type = CandidateType.TRAIT_TYPE_ALIAS
        ∨ c.type = CandidateType.TRAIT_FUNC))
    ∧ c.is_impl_candidate ≠ c.is_trait_candidate := by
  obtain ⟨t, ty, it⟩ := c
  cases t <;>
    simp [PathProbeCandidate.is_impl_candidate,
      PathProbeCandidate.is_trait_candidate]

/-- C10: `is_error` on a trait item holds exactly when its kind is
`ERROR`, so any item passing the `is_error` filter in the trait-default
pass has kind `FN`, `CONST` or `TYPE`, and the `gcc_unreachable` branch of
the kind-dispatch switch (the `none` case of `traitItemCandidateType`)
cannot fire. -/
theorem c10_error_branch_unreachable (item : TraitItemReference) :
    (item.is_error = true ↔ item.type = TraitItemType.ERROR)
    ∧ (item.is_error = false →
        traitItemCandidateType item.get_trait_item_type ≠ none) := by
  constructor
  · simp [TraitItemReference.is_error]
  · intro hnoterr
    have hne : item.type ≠ TraitItemType.ERROR := by
      simpa [TraitItemReference.is_error] using hnoterr
    rcases htype : item.type with _ | _ | _ | _ <;>
      simp [TraitItemReference.get_trait_item_type, htype,
        traitItemCandidateType]
    exact hne htype

/-- Witness for C10 at a concrete non-error item. -/
theorem c10_error_branch_unreachable_witness :
    traitItemCandidateType sampleBazItem.get_trait_item_type ≠ none :=
  (c10_error_branch_unreachable sampleBazItem).2 (by decide)

/-- If any (item, block) pair in the iterated list has an uncached block
self type, the whole inherent pass aborts (`rust_assert (ok)` fires). -/
lemma process_impl_items_abort (env : Env) (receiver : BaseType)
    (search : String) (l : List (HirId × ImplItem × ImplBlock))
    (p : HirId × ImplItem × ImplBlock) (hmem : p ∈ l)
    (hmiss : env.lookup_type p.2.2.self_type_hirid = none) :
    PathProbeType.process_impl_items_for_candidates env receiver search l
      = none := by
  induction l with
  | nil => cases hmem
  | cons a rest ih =>
    rcases List.mem_cons.mp hmem with heq | htail
    · subst heq
      rw [PathProbeType.process_impl_items_for_candidates,
        PathProbeType.process_impl_item_candidate, hmiss]
    · rw [PathProbeType.process_impl_items_for_candidates]
      rcases hhead : PathProbeType.process_impl_item_candidate env receiver
          search a.2.1 a.2.2 with _ | cs
      · rfl
      · rw [ih htail]

/-- C1 (amended): during the inherent pass, a registry pair whose owning
block's self type is not in the type cache is fatal — `Probe` runs into
`rust_assert (ok)` and produces no candidate sequence at all — rather than
being silently skipped. -/
theorem c1_cache_miss_fatal (env : Env) (b : TraitTypeBuilders)
    (receiver : BaseType) (segment_name : String)
    (p : HirId × ImplItem × ImplBlock) (hmem : p ∈ env.impl_items)
    (hmiss : env.lookup_type p.2.2.self_type_hirid = none) :
    PathProbeType.Probe env b receiver segment_name = none := by
  rw [PathProbeType.Probe,
    process_impl_items_abort env receiver segment_name env.impl_items p
      hmem hmiss]

/-- Witness for C1 (amended) at a concrete registry. -/
theorem c1_cache_miss_fatal_witness :
    PathProbeType.Probe cacheMissEnv sampleBuilders (BaseType.base 1) "bar"
      = none :=
  c1_cache_miss_fatal cacheMissEnv sampleBuilders (BaseType.base 1) "bar"
    (0, ImplItem.functionItem "foo" 10,
      { self_type_hirid := 99, trait_ref := none })
    (by decide) rfl

/-- C1 counterexample: in `cacheMissEnv` the first pair's block self type
is uncached while the second pair alone would yield an inherent candidate
(per the spec's own characterization, `specInherentCandidates` is
non-empty); the claim says the miss is silently skipped and the remaining
candidates are still returned, but `Probe` returns no candidate sequence
at all. -/
theorem c1_counterexample :
    PathProbeType.Probe cacheMissEnv sampleBuilders (BaseType.base 1) "foo"
        = none
    ∧ specInherentCandidates cacheMissEnv (BaseType.base 1) "foo" ≠ [] :=
  ⟨rfl, by decide⟩

/-- C6 (amended): `get_tyty` on a trait item whose declaration reference
is non-null is total on every kind, and on `ERROR` kind returns the error
type tagged by the declaration's id; on a null declaration reference
(notably the shared sentinel) the initial `rust_assert` fires instead. -/
theorem c6_get_tyty_error_kind (b : TraitTypeBuilders)
    (i : TraitItemReference) (h : HIRTraitItem)
    (hd : i.hir_trait_item = some h) :
    (∃ ty, i.get_tyty b = some ty)
    ∧ (i.type = TraitItemType.ERROR →
        i.get_tyty b = some (BaseType.errorType h.hirid)) := by
  constructor
  · rcases htype : i.type with _ | _ | _ | _ <;>
      exact ⟨_, by rw [TraitItemReference.get_tyty, hd, htype]⟩
  · intro htype
    rw [TraitItemReference.get_tyty, hd, htype]
    rfl

/-- Witness for C6 (amended) at a concrete `ERROR`-kind item with a
non-null declaration. -/
theorem c6_get_tyty_error_kind_witness :
    (∃ ty, errKindItem.get_tyty sampleBuilders = some ty)
    ∧ (errKindItem.type = TraitItemType.ERROR →
        errKindItem.get_tyty sampleBuilders
          = some (BaseType.errorType 9)) :=
  c6_get_tyty_error_kind sampleBuilders errKindItem { hirid := 9 } rfl

/-- C6 counterexample: the shared sentinel has kind `ERROR` and a null
declaration reference, and `get_tyty` on it fails its opening
`rust_assert (hir_trait_item != nullptr)` instead of returning an error
type — so `get_tyty` is not total on the sentinel. -/
theorem c6_counterexample :
    TraitItemReference.error_node.type = TraitItemType.ERROR
    ∧ TraitItemReference.error_node.get_tyty sampleBuilders = none :=
  ⟨rfl, rfl⟩

/-- The three fused visit overloads, written uniformly through the item
accessors. -/
lemma visitImplItem_eq (env : Env) (s : String) (impl : ImplBlock)
    (item : ImplItem) :
    PathProbeType.visitImplItem env s impl item
      = (if s == implItemIdentifier item then
          match env.lookup_type (implItemHirId item) with
          | none => none
          | some ty =>
            some [{ type := implItemCandidateType item, ty := ty,
                    item := Candidate.impl
                      { impl_item := item, parent := impl } }]
        else some []) := by
  cases item <;> rfl

/-- One registry pair's inherent-pass contribution, when it does not
abort, is exactly that pair's spec-side candidate. -/
lemma process_impl_item_candidate_spec (env : Env) (receiver : BaseType)
    (s : String) (p : HirId × ImplItem × ImplBlock)
    (cs : List PathProbeCandidate)
    (h : PathProbeType.process_impl_item_candidate env receiver s
        p.2.1 p.2.2 = some cs) :
    cs = (specInherentCandidate env receiver s p).toList := by
  obtain ⟨id, item, impl⟩ := p
  rw [PathProbeType.process_impl_item_candidate, visitImplItem_eq] at h
  rw [specInherentCandidate]
  dsimp only at h ⊢
  rcases hlook : env.lookup_type impl.self_type_hirid with _ | bty
  · rw [hlook] at h
    dsimp only at h
    cases h
  · rw [hlook] at h
    dsimp only at h ⊢
    by_cases hcompat : env.can_eq receiver bty false = true
    · rw [hcompat] at h
      rw [if_neg (by simp)] at h
      rw [hcompat, Bool.true_and]
      by_cases hname : (s == implItemIdentifier item) = true
      · rw [if_pos hname] at h
        rw [if_pos hname]
        rcases hlook2 : env.lookup_type (implItemHirId item) with _ | ty
        · rw [hlook2] at h
          dsimp only at h
          cases h
        · rw [hlook2] at h
          dsimp only at h
          injection h with h
          rw [← h]
          rfl
      · rw [if_neg hname] at h
        rw [if_neg hname]
        injection h with h
        rw [← h]
        rfl
    · have hcompat2 : env.can_eq receiver bty false = false := by
        simpa using hcompat
      rw [hcompat2] at h
      rw [if_pos (by simp)] at h
      rw [hcompat2, Bool.false_and]
      rw [if_neg (by simp)]
      injection h with h
      rw [← h]
      rfl

/-- The inherent pass, when it does not abort, returns exactly the
spec-side candidate list of the iterated registry slice. -/
lemma process_impl_items_spec (env : Env) (receiver : BaseType)
    (s : String) :
    ∀ (l : List (HirId × ImplItem × ImplBlock))
      (cs : List PathProbeCandidate),
      PathProbeType.process_impl_items_for_candidates env receiver s l
          = some cs →
      cs = l.filterMap (specInherentCandidate env receiver s) := by
  intro l
  induction l with
  | nil =>
    intro cs h
    injection h with h
    rw [← h]
    rfl
  | cons a rest ih =>
    intro cs h
    rw [PathProbeType.process_impl_items_for_candidates] at h
    rcases hhead : PathProbeType.process_impl_item_candidate env receiver s
        a.2.1 a.2.2 with _ | cs0
    · rw [hhead] at h; cases h
    · rw [hhead] at h
      rcases hrest : PathProbeType.process_impl_items_for_candidates env
          receiver s rest with _ | rest_cs
      · rw [hrest] at h; cases h
      · rw [hrest] at h
        injection h with h
        rw [← h]
        have hspec := process_impl_item_candidate_spec env receiver s a cs0
          hhead
        rw [List.filterMap_cons]
        rcases hf : specInherentCandidate env receiver s a with _ | cand
        · rw [hf] at hspec
          dsimp only at hspec ⊢
          rw [hspec, ih rest_cs hrest]
          rfl
        · rw [hf] at hspec
          dsimp only at hspec ⊢
          rw [hspec, ih rest_cs hrest]
          rfl

/-- A spec-side inherent candidate is always an impl candidate and never a
trait candidate. -/
lemma specInherentCandidate_impl (env : Env) (receiver : BaseType)
    (s : String) (p : HirId × ImplItem × ImplBlock)
    (c : PathProbeCandidate)
    (h : specInherentCandidate env receiver s p = some c) :
    c.is_impl_candidate = true ∧ c.is_trait_candidate = false := by
  obtain ⟨id, item, impl⟩ := p
  rw [specInherentCandidate] at h
  dsimp only at h
  rcases hlook : env.lookup_type impl.self_type_hirid with _ | bty
  · rw [hlook] at h
    dsimp only at h
    cases h
  · rw [hlook] at h
    dsimp only at h
    by_cases hcond : (env.can_eq receiver bty false
        && (s == implItemIdentifier item)) = true
    · rw [if_pos hcond] at h
      rcases hlook2 : env.lookup_type (implItemHirId item) with _ | ty
      · rw [hlook2] at h
        dsimp only at h
        cases h
      · rw [hlook2] at h
        dsimp only at h
        injection h with h
        rw [← h]
        cases item <;> exact ⟨rfl, rfl⟩
    · rw [if_neg hcond] at h
      cases h

/-- A candidate type produced by the kind-dispatch switch is one of the
three trait variants. -/
lemma traitItemCandidateType_trait (t : TraitItemType) (ct : CandidateType)
    (h : traitItemCandidateType t = some ct) :
    ct = CandidateType.TRAIT_FUNC ∨ ct = CandidateType.TRAIT_ITEM_CONST
      ∨ ct = CandidateType.TRAIT_TYPE_ALIAS := by
  cases t <;> simp [traitItemCandidateType] at h <;> simp [← h]

/-- Every candidate the trait-default pass returns carries a trait payload
for an optional, non-error item, and is a trait (not impl) candidate. -/
lemma process_traits_mem (b : TraitTypeBuilders) (s : String) :
    ∀ (ts : List TraitReference) (cs : List PathProbeCandidate),
      PathProbeType.process_traits_for_candidates b s ts = some cs →
      ∀ c ∈ cs,
        c.is_impl_candidate = false ∧ c.is_trait_candidate = true
        ∧ ∃ tc, c.item = Candidate.trait tc
            ∧ tc.item_ref.is_optional = true
            ∧ tc.item_ref.is_error = false := by
  intro ts
  induction ts with
  | nil =>
    intro cs h c hc
    injection h with h
    rw [← h] at hc
    cases hc
  | cons trait_ref rest ih =>
    intro cs h c hc
    simp only [PathProbeType.process_traits_for_candidates] at h
    by_cases herr : (trait_ref.lookup_trait_item s).is_error = true
    · rw [if_pos herr] at h
      exact ih cs h c hc
    · have herr2 : (trait_ref.lookup_trait_item s).is_error = false := by
        simpa using herr
      rw [if_neg (by simp [herr2])] at h
      by_cases hopt : (trait_ref.lookup_trait_item s).is_optional = true
      · rw [if_neg (by simp [hopt])] at h
        rcases hct : traitItemCandidateType
            (trait_ref.lookup_trait_item s).get_trait_item_type
          with _ | ct
        · rw [hct] at h; cases h
        · rw [hct] at h
          rcases hty : (trait_ref.lookup_trait_item s).get_tyty b
            with _ | ty
          · rw [hty] at h; cases h
          · rw [hty] at h
            rcases hrest : PathProbeType.process_traits_for_candidates b s
                rest with _ | rest_cs
            · rw [hrest] at h; cases h
            · rw [hrest] at h
              injection h with h
              rw [← h] at hc
              rcases List.mem_cons.mp hc with hhead | htail
              · subst hhead
                refine ⟨?_, ?_,
                  ⟨{ trait_ref := trait_ref,
                     item_ref := trait_ref.lookup_trait_item s },
                   rfl, hopt, herr2⟩⟩
                · rcases traitItemCandidateType_trait _ ct hct with
                    h3 | h3 | h3 <;> rw [h3] <;> rfl
                · rcases traitItemCandidateType_trait _ ct hct with
                    h3 | h3 | h3 <;> rw [h3] <;> rfl
              · exact ih rest_cs hrest c htail
      · have hopt2 : (trait_ref.lookup_trait_item s).is_optional
            = false := by simpa using hopt
        rw [if_pos (by simp [hopt2])] at h
        exact ih cs h c hc

/-- C2: every trait-default candidate `Probe` returns carries a trait item
that is optional (has a default body) and is not the error sentinel; a
non-optional matching item, or a trait whose lookup returns the sentinel,
contributes no candidate. -/
theorem c2_trait_candidates_optional (env : Env) (b : TraitTypeBuilders)
    (receiver : BaseType) (segment_name : String)
    (cs : List PathProbeCandidate) (c : PathProbeCandidate)
    (h : PathProbeType.Probe env b receiver segment_name = some cs)
    (hc : c ∈ cs) (ht : c.is_trait_candidate = true) :
    ∃ tc, c.item = Candidate.trait tc ∧ tc.item_ref.is_optional = true
      ∧ tc.item_ref.is_error = false := by
  rw [PathProbeType.Probe] at h
  rcases h1 : PathProbeType.process_impl_items_for_candidates env receiver
      segment_name env.impl_items with _ | a
  · rw [h1] at h; cases h
  · rw [h1] at h
    rcases h2 : PathProbeType.process_traits_for_candidates b segment_name
        (TypeBoundsProbe.scan env receiver) with _ | t2
    · rw [h2] at h; cases h
    · rw [h2] at h
      injection h with h
      rw [← h] at hc
      rcases List.mem_append.mp hc with ha | ht2
      · have hspec := process_impl_items_spec env receiver segment_name
          env.impl_items a h1
        rw [hspec] at ha
        obtain ⟨p, _, hf⟩ := List.mem_filterMap.mp ha
        have himpl := (specInherentCandidate_impl env receiver segment_name
          p c hf).2
        rw [himpl] at ht
        cases ht
      · exact (process_traits_mem b segment_name _ t2 h2 c ht2).2.2

/-- Witness for C2 at a concrete probe returning one trait candidate. -/
theorem c2_trait_candidates_optional_witness :
    ∃ tc, sampleTraitCandidate.item = Candidate.trait tc
      ∧ tc.item_ref.is_optional = true ∧ tc.item_ref.is_error = false :=
  c2_trait_candidates_optional sampleEnv sampleBuilders (BaseType.base 1)
    "baz" [sampleTraitCandidate] sampleTraitCandidate (by decide)
    (by decide) (by decide)

/-- C5: whenever `Probe` returns a candidate sequence, its inherent
candidates are exactly (same order and multiplicity) the registry items
whose identifier equals the query and whose owning block's cached self
type is non-strictly compatible with the receiver, as characterized by
`specInherentCandidates`. -/
theorem c5_inherent_exactness (env : Env) (b : TraitTypeBuilders)
    (receiver : BaseType) (segment_name : String)
    (cs : List PathProbeCandidate)
    (h : PathProbeType.Probe env b receiver segment_name = some cs) :
    (cs.filter fun c => c.is_impl_candidate)
      = specInherentCandidates env receiver segment_name := by
  rw [PathProbeType.Probe] at h
  rcases h1 : PathProbeType.process_impl_items_for_candidates env receiver
      segment_name env.impl_items with _ | a
  · rw [h1] at h; cases h
  · rw [h1] at h
    rcases h2 : PathProbeType.process_traits_for_candidates b segment_name
        (TypeBoundsProbe.scan env receiver) with _ | t2
    · rw [h2] at h; cases h
    · rw [h2] at h
      injection h with h
      rw [← h, List.filter_append]
      have hspec := process_impl_items_spec env receiver segment_name
        env.impl_items a h1
      have ha : (a.filter fun c => c.is_impl_candidate) = a := by
        rw [List.filter_eq_self]
        intro c hcmem
        rw [hspec] at hcmem
        obtain ⟨p, _, hf⟩ := List.mem_filterMap.mp hcmem
        exact (specInherentCandidate_impl env receiver segment_name p c
          hf).1
      have ht2 : (t2.filter fun c => c.is_impl_candidate) = [] := by
        rw [List.filter_eq_nil_iff]
        intro c hcmem
        have := (process_traits_mem b segment_name _ t2 h2 c hcmem).1
        simp [this]
      rw [ha, ht2, List.append_nil, hspec]
      rfl

/-- Witness for C5 at a concrete probe returning one inherent
candidate. -/
theorem c5_inherent_exactness_witness :
    ([sampleImplCandidate].filter fun c => c.is_impl_candidate)
      = specInherentCandidates sampleEnv (BaseType.base 1) "bar" :=
  c5_inherent_exactness sampleEnv sampleBuilders (BaseType.base 1) "bar"
    [sampleImplCandidate] (by decide)

end GccrsProbe
